import Mathlib

/-! Verification of the Google Ads MCP tool layer (`hogans_ads_mcp`): a
shallow embedding of the value codec, mutation builders, query builders
and error formatter from `tools/campaigns.py`, `tools/ads.py`,
`tools/keywords.py` and `tools/reporting.py`, together with theorems
settling the specified properties of that layer.

Conventions of the embedding:
* Python dollar amounts (floats) are modelled as exact rationals `ℚ`;
  micro-amounts as `ℤ`.
* `int(x)` on a float is truncation toward zero: `int_trunc`.
* Python `round(x, 2)` and `f"{x:.2f}"` both round half-to-even at two
  decimals; `round2` / `formatF2` model that rounding on the exact value.
* The platform client is external: mutate calls and search responses are
  out of scope, so each tool function is embedded as the pure
  construction it performs — the operation payloads it builds and the
  query / report strings it assembles.  Resource names returned by the
  platform (for example the budget resource created inside
  `create_campaign`, or the budget resource looked up by
  `update_campaign_budget`) are taken as parameters.
* A tool that rejects its input by returning an error message instead of
  calling the platform is embedded as `Except String`: `.error msg` is
  the local rejection, `.ok` carries what would be sent.
* Python truthiness tests on strings and floats (`if status_filter:`,
  `if cpc_bid_dollars:`) are modelled as the corresponding emptiness /
  zero tests, so `""` and `0.0` take the falsy branch exactly as in the
  source.
-/

set_option allowUnsafeReducibility true
set_option maxRecDepth 16384

attribute [local semireducible] Rat.mul Rat.inv Rat.add Rat.sub Rat.ofScientific

/-! ### String primitives.  The Python string methods the layer uses
(`.upper()`, `.strip()`, `.split(sep)`, `.replace(sep, "")`), defined
structurally over the character list so that they evaluate (the core
`String` versions are well-founded recursions that do not reduce). -/

/-- Python `s.upper()` (ASCII, as every input the layer compares is
ASCII). -/
def str_upper (s : String) : String :=
  ⟨s.data.map Char.toUpper⟩

/-- Python `s.strip()`: drop leading and trailing whitespace. -/
def str_strip (s : String) : String :=
  ⟨((s.data.dropWhile Char.isWhitespace).reverse.dropWhile Char.isWhitespace).reverse⟩

/-- Python `s.split(sep)` for a one-character separator: `"" ↦ [""]`,
`"a,,b" ↦ ["a", "", "b"]`, separators preserved as empty items. -/
def split_char (sep : Char) (s : String) : List String :=
  (s.data.foldr
    (fun c acc =>
      match acc with
      | g :: gs => if c = sep then [] :: g :: gs else (c :: g) :: gs
      | [] => [[c]])
    [[]]).map (fun g => String.mk g)

/-- Python `s.replace(sep, "")` for a one-character pattern: remove
every occurrence. -/
def remove_char (c : Char) (s : String) : String :=
  ⟨s.data.filter (fun x => x ≠ c)⟩

/-! ### Value codec -/

/-- Truncation toward zero on `ℚ`, the behaviour of Python `int()` on a
float: `int(2.7) = 2`, `int(-2.7) = -2`.  (Stated with `Rat.floor`,
which evaluates; it agrees with `⌊·⌋`, see `ratFloor_eq_floor`.) -/
def int_trunc (q : ℚ) : ℤ :=
  if 0 ≤ q then q.floor else -(Rat.floor (-q))

/-- Dollars to micros exactly as the layer builds every monetary
mutation value: `int(dollars * 1_000_000)` (campaigns.py:173,
campaigns.py:322, ads.py:49, keywords.py:125). -/
def dollars_to_micros (d : ℚ) : ℤ :=
  int_trunc (d * 1000000)

/-- Round half-to-even to the nearest integer, the rounding used by
Python `round()` and by `%.2f` formatting on an exactly representable
value. -/
def roundHalfEven (x : ℚ) : ℤ :=
  let n := x.floor
  let f := x - n
  if f < 1/2 then n
  else if 1/2 < f then n + 1
  else if n % 2 = 0 then n else n + 1

/-- Round a rational to two decimal places, half-to-even: the value
denoted by Python `round(x, 2)` and rendered by `f"{x:.2f}"`. -/
def round2 (x : ℚ) : ℚ :=
  (roundHalfEven (x * 100) : ℚ) / 100

/-- Micros back to dollars at two-decimal display precision, as every
report renders money: `micros / 1_000_000` then `:.2f`
(campaigns.py:59-65, reporting.py:81-98). -/
def micros_to_dollars (m : ℤ) : ℚ :=
  round2 ((m : ℚ) / 1000000)

/-- Zero padding to two digits for the fractional part of a money
string. -/
def pad2 (n : ℕ) : String :=
  if n < 10 then "0" ++ toString n else toString n

/-- Fixed two-decimal rendering of a rational, Python `f"{x:.2f}"`:
round half-to-even at two decimals, then print with exactly two
fractional digits. -/
def formatF2 (x : ℚ) : String :=
  let c := roundHalfEven (x * 100)
  if c < 0 then
    "-" ++ toString ((-c).toNat / 100) ++ "." ++ pad2 ((-c).toNat % 100)
  else
    toString (c.toNat / 100) ++ "." ++ pad2 (c.toNat % 100)

/-! ### Enums (the members of each platform enum this layer uses) -/

/-- CampaignStatusEnum members used by the layer. -/
inductive CampaignStatus
  | ENABLED
  | PAUSED
  | REMOVED
deriving DecidableEq, Repr

/-- AdGroupAdStatusEnum members used by the layer. -/
inductive AdGroupAdStatus
  | ENABLED
  | PAUSED
  | REMOVED
deriving DecidableEq, Repr

/-- AdGroupStatusEnum members used by the layer. -/
inductive AdGroupStatus
  | ENABLED
deriving DecidableEq, Repr

/-- AdGroupTypeEnum members used by the layer. -/
inductive AdGroupType
  | SEARCH_STANDARD
deriving DecidableEq, Repr

/-- AdGroupCriterionStatusEnum members used by the layer. -/
inductive AdGroupCriterionStatus
  | ENABLED
deriving DecidableEq, Repr

/-- AdvertisingChannelTypeEnum members used by the layer. -/
inductive AdvertisingChannelType
  | SEARCH
  | DISPLAY
  | DISCOVERY
deriving DecidableEq, Repr

/-- KeywordMatchTypeEnum members used by the layer. -/
inductive KeywordMatchType
  | EXACT
  | PHRASE
  | BROAD
deriving DecidableEq, Repr

/-- BudgetDeliveryMethodEnum members used by the layer. -/
inductive BudgetDeliveryMethod
  | STANDARD
deriving DecidableEq, Repr

/-! ### Name-to-enum dictionaries (the `status_map` / `channel_map` /
`match_map` dict lookups of the source, as if-chains) -/

/-- campaigns.py:256-260: `status_map` of `update_campaign_status`. -/
def campaign_status_map (s : String) : Option CampaignStatus :=
  if s = "ENABLED" then some .ENABLED
  else if s = "PAUSED" then some .PAUSED
  else if s = "REMOVED" then some .REMOVED
  else none

/-- ads.py:243-247: `status_map` of `update_ad_status`. -/
def ad_status_map (s : String) : Option AdGroupAdStatus :=
  if s = "ENABLED" then some .ENABLED
  else if s = "PAUSED" then some .PAUSED
  else if s = "REMOVED" then some .REMOVED
  else none

/-- campaigns.py:193-197: `channel_map` of `create_campaign`. -/
def channel_map (s : String) : Option AdvertisingChannelType :=
  if s = "SEARCH" then some .SEARCH
  else if s = "DISPLAY" then some .DISPLAY
  else if s = "DISCOVERY" then some .DISCOVERY
  else none

/-- keywords.py:101-105: `match_map` of `add_keywords`. -/
def match_type_map (s : String) : Option KeywordMatchType :=
  if s = "EXACT" then some .EXACT
  else if s = "PHRASE" then some .PHRASE
  else if s = "BROAD" then some .BROAD
  else none

/-! ### Resource paths -/

/-- `CampaignService.campaign_path`. -/
def campaign_path (customerId campaignId : String) : String :=
  "customers/" ++ customerId ++ "/campaigns/" ++ campaignId

/-- `AdGroupService.ad_group_path`. -/
def ad_group_path (customerId adGroupId : String) : String :=
  "customers/" ++ customerId ++ "/adGroups/" ++ adGroupId

/-- `AdGroupAdService.ad_group_ad_path`. -/
def ad_group_ad_path (customerId adGroupId adId : String) : String :=
  "customers/" ++ customerId ++ "/adGroupAds/" ++ adGroupId ++ "~" ++ adId

/-! ### Mutation payloads.  Every payload field the layer ever touches is
an `Option`, `none` meaning the field was left unset on the proto
message; `resourceName` is the target identifier of an update, not a
payload field. -/

/-- The CampaignBudget message fields this layer touches. -/
structure CampaignBudget where
  resourceName : Option String := none
  name : Option String := none
  amountMicros : Option ℤ := none
  deliveryMethod : Option BudgetDeliveryMethod := none
deriving DecidableEq, Repr

/-- The Campaign message fields this layer touches. -/
structure Campaign where
  resourceName : Option String := none
  name : Option String := none
  campaignBudget : Option String := none
  status : Option CampaignStatus := none
  advertisingChannelType : Option AdvertisingChannelType := none
  targetSpendMicros : Option ℤ := none
  startDate : Option String := none
  endDate : Option String := none
deriving DecidableEq, Repr

/-- The AdGroup message fields set by `create_ad_group` (all always
set, so not optional). -/
structure AdGroup where
  name : String
  campaign : String
  status : AdGroupStatus
  type_ : AdGroupType
  cpcBidMicros : ℤ
deriving DecidableEq, Repr

/-- An AdTextAsset (a headline or description of a responsive search
ad). -/
structure AdTextAsset where
  text : String
deriving DecidableEq, Repr

/-- The ResponsiveSearchAdInfo message fields this layer touches. -/
structure ResponsiveSearchAdInfo where
  headlines : List AdTextAsset := []
  descriptions : List AdTextAsset := []
  path1 : Option String := none
  path2 : Option String := none
deriving DecidableEq, Repr

/-- The Ad message fields this layer touches. -/
structure Ad where
  finalUrls : List String := []
  responsiveSearchAd : ResponsiveSearchAdInfo := {}
deriving DecidableEq, Repr

/-- The AdGroupAd message fields this layer touches. -/
structure AdGroupAd where
  resourceName : Option String := none
  adGroup : Option String := none
  status : Option AdGroupAdStatus := none
  ad : Option Ad := none
deriving DecidableEq, Repr

/-- Keyword criterion info (text and match type). -/
structure KeywordInfo where
  text : String
  matchType : KeywordMatchType
deriving DecidableEq, Repr

/-- The AdGroupCriterion fields set by `add_keywords`. -/
structure AdGroupCriterion where
  adGroup : String
  keyword : KeywordInfo
  status : AdGroupCriterionStatus
  cpcBidMicros : Option ℤ := none
deriving DecidableEq, Repr

/-- The CampaignCriterion fields set by `add_negative_keywords`. -/
structure CampaignCriterion where
  campaign : String
  negative : Bool
  keyword : KeywordInfo
deriving DecidableEq, Repr

/-- An update operation: the update payload together with its
`update_mask` paths. -/
structure UpdateOp (α : Type) where
  update : α
  updateMask : List String
deriving DecidableEq, Repr

/-! ### Which payload fields an update payload actually changes
(the `some`-valued payload fields, `resourceName` excluded: on the
platform the resource name identifies the update target and is not a
mutable payload field). -/

/-- The payload fields set on a `Campaign` update payload. -/
def campaignChangedFields (c : Campaign) : List String :=
  (if c.name.isSome then ["name"] else []) ++
  (if c.campaignBudget.isSome then ["campaign_budget"] else []) ++
  (if c.status.isSome then ["status"] else []) ++
  (if c.advertisingChannelType.isSome then ["advertising_channel_type"] else []) ++
  (if c.targetSpendMicros.isSome then ["target_spend.target_spend_micros"] else []) ++
  (if c.startDate.isSome then ["start_date"] else []) ++
  (if c.endDate.isSome then ["end_date"] else [])

/-- The payload fields set on a `CampaignBudget` update payload. -/
def budgetChangedFields (b : CampaignBudget) : List String :=
  (if b.name.isSome then ["name"] else []) ++
  (if b.amountMicros.isSome then ["amount_micros"] else []) ++
  (if b.deliveryMethod.isSome then ["delivery_method"] else [])

/-- The payload fields set on an `AdGroupAd` update payload. -/
def adGroupAdChangedFields (a : AdGroupAd) : List String :=
  (if a.adGroup.isSome then ["ad_group"] else []) ++
  (if a.status.isSome then ["status"] else []) ++
  (if a.ad.isSome then ["ad"] else [])

/-! ### Mutation builders -/

/-- campaigns.py:145-228 `create_campaign`: the budget-creation payload
and the campaign-creation payload.  `budgetResource` is the resource
name the platform returned for the created budget (used as the
campaign's `campaign_budget`); the customer id only addresses the mutate
calls and does not appear in either payload. -/
def create_campaign (name : String) (dailyBudgetDollars : ℚ)
    (channelType : String) (startDate endDate : Option String)
    (budgetResource : String) : CampaignBudget × Campaign :=
  let budget : CampaignBudget :=
    { name := some (name ++ " Budget")
      amountMicros := some (int_trunc (dailyBudgetDollars * 1000000))
      deliveryMethod := some .STANDARD }
  let campaign : Campaign :=
    { name := some name
      campaignBudget := some budgetResource
      status := some .PAUSED
      advertisingChannelType := some ((channel_map (str_upper channelType)).getD .SEARCH)
      targetSpendMicros := some 0
      startDate := startDate.map (fun s => remove_char '-' s)
      endDate := endDate.map (fun s => remove_char '-' s) }
  (budget, campaign)

/-- campaigns.py:231-279 `update_campaign_status`: validates the status
name (case-insensitively, against `status_map`), and on success builds
the update operation with field mask `["status"]`; on failure returns
the `Invalid status` message without calling the platform. -/
def update_campaign_status (customerId campaignId newStatus : String) :
    Except String (UpdateOp Campaign) :=
  let upper := str_upper newStatus
  match campaign_status_map upper with
  | none =>
      .error ("Invalid status: " ++ newStatus ++ ". Use ENABLED, PAUSED, or REMOVED.")
  | some st =>
      .ok { update := { resourceName := some (campaign_path customerId campaignId)
                        status := some st }
            updateMask := ["status"] }

/-- campaigns.py:282-338 `update_campaign_budget`: the update operation
built once the campaign's budget resource has been looked up
(`budgetResource`).  No validation is performed on the amount. -/
def update_campaign_budget (budgetResource : String)
    (newDailyBudgetDollars : ℚ) : UpdateOp CampaignBudget :=
  { update := { resourceName := some budgetResource
                amountMicros := some (int_trunc (newDailyBudgetDollars * 1000000)) }
    updateMask := ["amount_micros"] }

/-- ads.py:20-66 `create_ad_group`: the ad-group creation payload. -/
def create_ad_group (customerId campaignId name : String)
    (cpcBidDollars : ℚ) : AdGroup :=
  { name := name
    campaign := campaign_path customerId campaignId
    status := .ENABLED
    type_ := .SEARCH_STANDARD
    cpcBidMicros := int_trunc (cpcBidDollars * 1000000) }

/-- ads.py:108 / ads.py:115: the headline list of
`create_responsive_search_ad` — split on `"|"`, each item stripped. -/
def headline_list (headlines : String) : List String :=
  (split_char '|' headlines).map (fun h => str_strip h)

/-- Same parse for the descriptions (ads.py:115). -/
def description_list (descriptions : String) : List String :=
  (split_char '|' descriptions).map (fun d => str_strip d)

/-- ads.py:69-143 `create_responsive_search_ad`: the ad-creation
payload.  `path1` / `path2` are only set when truthy (a supplied empty
string is skipped like `None`). -/
def create_responsive_search_ad (customerId adGroupId headlines descriptions
    finalUrl : String) (path1 path2 : Option String) : AdGroupAd :=
  { adGroup := some (ad_group_path customerId adGroupId)
    status := some .ENABLED
    ad := some
      { finalUrls := [finalUrl]
        responsiveSearchAd :=
          { headlines := (headline_list headlines).map (fun t => { text := t })
            descriptions := (description_list descriptions).map (fun t => { text := t })
            path1 := match path1 with
              | some p => if p = "" then none else some p
              | none => none
            path2 := match path2 with
              | some p => if p = "" then none else some p
              | none => none } } }

/-- ads.py:216-266 `update_ad_status`: validates the status name
(case-insensitively), and on success builds the update operation with
field mask `["status"]`; on failure returns the `Invalid status`
message without calling the platform. -/
def update_ad_status (customerId adGroupId adId newStatus : String) :
    Except String (UpdateOp AdGroupAd) :=
  let upper := str_upper newStatus
  match ad_status_map upper with
  | none =>
      .error ("Invalid status: " ++ newStatus ++ ". Use ENABLED, PAUSED, or REMOVED.")
  | some st =>
      .ok { update := { resourceName := some (ad_group_ad_path customerId adGroupId adId)
                        status := some st }
            updateMask := ["status"] }

/-- keywords.py:112 / keywords.py:165: the keyword list — split on
`","`, each item stripped. -/
def keyword_list (keywords : String) : List String :=
  (split_char ',' keywords).map (fun kw => str_strip kw)

/-- keywords.py:76-141 `add_keywords`: validates the match type
(case-insensitively), then builds one criterion per parsed keyword.
The CPC bid is only set when truthy (`None` and `0.0` are both
skipped). -/
def add_keywords (customerId adGroupId keywords matchType : String)
    (cpcBidDollars : Option ℚ) : Except String (List AdGroupCriterion) :=
  let upper := str_upper matchType
  match match_type_map upper with
  | none =>
      .error ("Invalid match type: " ++ matchType ++ ". Use EXACT, PHRASE, or BROAD.")
  | some mt =>
      .ok ((keyword_list keywords).map (fun kw =>
        { adGroup := ad_group_path customerId adGroupId
          keyword := { text := kw, matchType := mt }
          status := .ENABLED
          cpcBidMicros := match cpcBidDollars with
            | some b => if b = 0 then none else some (int_trunc (b * 1000000))
            | none => none }))

/-- keywords.py:144-192 `add_negative_keywords`: one negative BROAD
criterion per parsed keyword; no validation of any kind. -/
def add_negative_keywords (customerId campaignId keywords : String) :
    List CampaignCriterion :=
  (keyword_list keywords).map (fun kw =>
    { campaign := campaign_path customerId campaignId
      negative := true
      keyword := { text := kw, matchType := .BROAD } })

/-! ### Query builders -/

/-- campaigns.py:37-47: the fixed SELECT of `list_campaigns`. -/
def list_campaigns_base : String :=
  "\n    SELECT\n      campaign.id,\n      campaign.name,\n      campaign.status,\n      campaign.advertising_channel_type,\n      campaign_budget.amount_micros,\n      campaign.start_date,\n      campaign.end_date\n    FROM campaign\n  "

/-- campaigns.py:49-52: the query `list_campaigns` sends.  The status
filter is appended verbatim when truthy — no validation, no case
normalization. -/
def list_campaigns_query (statusFilter : Option String) : String :=
  let q := list_campaigns_base
  let q := match statusFilter with
    | some f => if f = "" then q else q ++ " WHERE campaign.status = \x27" ++ f ++ "\x27"
    | none => q
  q ++ " ORDER BY campaign.name"

/-- ads.py:164-179: the fixed SELECT of `list_ads`, scoped to one
campaign. -/
def list_ads_base (campaignId : String) : String :=
  "\n    SELECT\n      ad_group_ad.ad.id,\n      ad_group_ad.ad.type,\n      ad_group_ad.ad.final_urls,\n      ad_group_ad.ad.responsive_search_ad.headlines,\n      ad_group_ad.ad.responsive_search_ad.descriptions,\n      ad_group_ad.status,\n      ad_group.name,\n      metrics.impressions,\n      metrics.clicks,\n      metrics.ctr,\n      metrics.cost_micros\n    FROM ad_group_ad\n    WHERE campaign.id = " ++ campaignId ++ "\n  "

/-- ads.py:181-184: the query `list_ads` sends.  Same verbatim
treatment of the status filter. -/
def list_ads_query (campaignId : String) (statusFilter : Option String) : String :=
  let q := list_ads_base campaignId
  let q := match statusFilter with
    | some f => if f = "" then q else q ++ " AND ad_group_ad.status = \x27" ++ f ++ "\x27"
    | none => q
  q ++ " ORDER BY metrics.impressions DESC"

/-- reporting.py:39-54: the fixed SELECT of `get_campaign_performance`,
plus the optional campaign-id filter (reporting.py:56-57, appended when
truthy). -/
def campaign_performance_base (campaignId : Option String) : String :=
  let q := "\n    SELECT\n      campaign.id,\n      campaign.name,\n      campaign.status,\n      metrics.impressions,\n      metrics.clicks,\n      metrics.ctr,\n      metrics.average_cpc,\n      metrics.cost_micros,\n      metrics.conversions,\n      metrics.conversions_value,\n      metrics.cost_per_conversion\n    FROM campaign\n    WHERE campaign.status != \x27REMOVED\x27\n  "
  match campaignId with
  | some cid => if cid = "" then q else q ++ " AND campaign.id = " ++ cid
  | none => q

/-- reporting.py:59-68: the query `get_campaign_performance` sends.
`if "," in date_range` takes the literal start,end branch, where
`start, end = date_range.split(",")` is a two-way unpack: it raises
`ValueError` unless the split has exactly two parts (modelled as
`.error`); a comma-free `date_range` is interpolated as a `DURING`
token.  Neither branch validates date format or ordering. -/
def get_campaign_performance_query (dateRange : String)
    (campaignId : Option String) : Except String String :=
  let q := campaign_performance_base campaignId
  match split_char ',' dateRange with
  | [s, e] =>
      .ok (q ++ " AND segments.date >= \x27" ++ str_strip s ++ "\x27" ++
        " AND segments.date <= \x27" ++ str_strip e ++ "\x27" ++
        " ORDER BY metrics.cost_micros DESC")
  | [_] =>
      .ok (q ++ " AND segments.date DURING " ++ dateRange ++
        " ORDER BY metrics.cost_micros DESC")
  | _ => .error "ValueError: too many values to unpack"

/-! ### Renderers -/

/-- campaigns.py:59-68: one campaign block of the `list_campaigns`
report.  The budget is the only monetary value: micros divided by
1,000,000 and rendered `:.2f`. -/
def list_campaign_row (id : ℤ) (name status channel : String)
    (amountMicros : ℤ) (startDate endDate : String) : String :=
  "ID: " ++ toString id ++
  "\n  Name: " ++ name ++
  "\n  Status: " ++ status ++
  "\n  Channel: " ++ channel ++
  "\n  Daily Budget: $" ++ formatF2 ((amountMicros : ℚ) / 1000000) ++
  "\n  Start: " ++ startDate ++
  "\n  End: " ++ endDate

/-- reporting.py:81-82 with reporting.py:98: the monetary line of one
campaign block of the performance report — cost and average CPC, each
micros divided by 1,000,000 and rendered `:.2f`. -/
def campaign_perf_money_line (costMicros avgCpcMicros : ℤ) : String :=
  "  Cost: $" ++ formatF2 ((costMicros : ℚ) / 1000000) ++
  " | Avg CPC: $" ++ formatF2 ((avgCpcMicros : ℚ) / 1000000) ++ "\n"

/-- campaigns.py:341-346 `_format_error` (the identical copies in
ads.py, keywords.py and reporting.py included): prefix each failure
message with `Error: `, join with newlines under the header. -/
def format_error (messages : List String) : String :=
  "Google Ads API Error:\n" ++
    String.intercalate "\n" (messages.map (fun m => "Error: " ++ m))

/-! ### Helper lemmas -/

theorem ratFloor_eq_floor (q : ℚ) : q.floor = ⌊q⌋ :=
  (Rat.floor_def' q).trans Rat.floor_def.symm

/-- C1 (counterexample).  The round-trip claim
`micros_to_dollars (dollars_to_micros d) = round2 d` fails at the
dollar amount `d = 131073/1048576 = 0.1250009536743164` (an exactly
float-representable input): truncation to micros lands exactly on the
two-decimal tie `0.125`, which rounds half-to-even down to `0.12`,
while `round(d, 2) = 0.13`. -/
theorem C1_counterexample :
    0 ≤ ((131073 : ℚ) / 1048576) ∧
      micros_to_dollars (dollars_to_micros ((131073 : ℚ) / 1048576)) ≠
        round2 ((131073 : ℚ) / 1048576) := by
  constructor
  · norm_num
  · decide

/-- C1 (amended).  For every dollar amount that is a whole number of
micros — `d = k / 1_000_000` with `k : ℕ` — converting dollars to
micros by truncation and back to two-decimal dollars yields exactly
`round(d, 2)`. -/
theorem C1_roundtrip_whole_micros (k : ℕ) :
    micros_to_dollars (dollars_to_micros ((k : ℚ) / 1000000)) =
      round2 ((k : ℚ) / 1000000) := by
  have hmul : ((k : ℚ) / 1000000) * 1000000 = (k : ℚ) := by
    field_simp
  have hfloor : dollars_to_micros ((k : ℚ) / 1000000) = (k : ℤ) := by
    unfold dollars_to_micros int_trunc
    rw [hmul]
    rw [if_pos (by positivity), ratFloor_eq_floor]
    exact Int.floor_natCast k
  rw [hfloor]
  unfold micros_to_dollars
  norm_num

theorem campaign_status_map_none {s : String}
    (h : s ∉ (["ENABLED", "PAUSED", "REMOVED"] : List String)) :
    campaign_status_map s = none := by
  have h1 : s ≠ "ENABLED" := fun e => h (by simp [e])
  have h2 : s ≠ "PAUSED" := fun e => h (by simp [e])
  have h3 : s ≠ "REMOVED" := fun e => h (by simp [e])
  unfold campaign_status_map
  rw [if_neg h1, if_neg h2, if_neg h3]

theorem ad_status_map_none {s : String}
    (h : s ∉ (["ENABLED", "PAUSED", "REMOVED"] : List String)) :
    ad_status_map s = none := by
  have h1 : s ≠ "ENABLED" := fun e => h (by simp [e])
  have h2 : s ≠ "PAUSED" := fun e => h (by simp [e])
  have h3 : s ≠ "REMOVED" := fun e => h (by simp [e])
  unfold ad_status_map
  rw [if_neg h1, if_neg h2, if_neg h3]

theorem channel_map_none {s : String}
    (h : s ∉ (["SEARCH", "DISPLAY", "DISCOVERY"] : List String)) :
    channel_map s = none := by
  have h1 : s ≠ "SEARCH" := fun e => h (by simp [e])
  have h2 : s ≠ "DISPLAY" := fun e => h (by simp [e])
  have h3 : s ≠ "DISCOVERY" := fun e => h (by simp [e])
  unfold channel_map
  rw [if_neg h1, if_neg h2, if_neg h3]

/-- C2.  Every update operation the layer builds carries a field mask
equal to exactly the payload fields it set — never an unchanged field,
never fewer, never empty: `update_campaign_status` masks exactly
`status`, `update_campaign_budget` masks exactly `amount_micros`,
`update_ad_status` masks exactly `status`. -/
theorem C2_update_mask_exact :
    (∀ c k s op, update_campaign_status c k s = .ok op →
        op.updateMask = campaignChangedFields op.update ∧ op.updateMask ≠ []) ∧
    (∀ r (d : ℚ),
        (update_campaign_budget r d).updateMask =
            budgetChangedFields (update_campaign_budget r d).update ∧
          (update_campaign_budget r d).updateMask ≠ []) ∧
    (∀ c g a s op, update_ad_status c g a s = .ok op →
        op.updateMask = adGroupAdChangedFields op.update ∧ op.updateMask ≠ []) := by
  refine ⟨?_, ?_, ?_⟩
  · intro c k s op hok
    simp only [update_campaign_status] at hok
    cases hmap : campaign_status_map (str_upper s) with
    | none => rw [hmap] at hok; exact absurd hok (by simp)
    | some st =>
        rw [hmap] at hok
        cases hok
        exact ⟨rfl, by simp⟩
  · intro r d
    exact ⟨rfl, by simp [update_campaign_budget]⟩
  · intro c g a s op hok
    simp only [update_ad_status] at hok
    cases hmap : ad_status_map (str_upper s) with
    | none => rw [hmap] at hok; exact absurd hok (by simp)
    | some st =>
        rw [hmap] at hok
        cases hok
        exact ⟨rfl, by simp⟩

/-- C2 witness: the concrete status update of campaign 2 in account 1. -/
theorem C2_update_mask_exact_witness :
    update_campaign_status "1" "2" "ENABLED" =
        Except.ok { update := { resourceName := some (campaign_path "1" "2")
                                status := some CampaignStatus.ENABLED }
                    updateMask := ["status"] } ∧
      (["status"] : List String) =
          campaignChangedFields { resourceName := some (campaign_path "1" "2")
                                  status := some CampaignStatus.ENABLED } ∧
      (["status"] : List String) ≠ [] := by
  refine ⟨rfl, ?_, ?_⟩
  · exact (C2_update_mask_exact.1 "1" "2" "ENABLED" _ rfl).1
  · exact (C2_update_mask_exact.1 "1" "2" "ENABLED" _ rfl).2

/-- C3 (counterexample).  The list operations do not validate or
normalize their status filter: `list_campaigns` interpolates an
arbitrary invalid string (`"garbage"`) and a lower-case valid one
(`"enabled"`, not uppercased) verbatim into the query it sends, instead
of failing or normalizing. -/
theorem C3_counterexample :
    list_campaigns_query (some "garbage") =
        list_campaigns_base ++
          " WHERE campaign.status = \x27garbage\x27 ORDER BY campaign.name" ∧
      list_campaigns_query (some "enabled") =
        list_campaigns_base ++
          " WHERE campaign.status = \x27enabled\x27 ORDER BY campaign.name" := by
  exact ⟨rfl, rfl⟩

/-- C3 (amended).  The update operations (`update_campaign_status`,
`update_ad_status`) accept the three status names case-insensitively,
normalize to uppercase before use, and fail with the `Invalid status`
message on every other string, without reaching the platform; the list
operations (`list_campaigns`, `list_ads`) perform no validation and no
normalization on a non-empty `status_filter` — it is interpolated into
the query verbatim. -/
theorem C3_status_validation :
    (∀ c k s, str_upper s ∈ (["ENABLED", "PAUSED", "REMOVED"] : List String) →
        ∃ op, update_campaign_status c k s = .ok op ∧
          op.update.status = campaign_status_map (str_upper s)) ∧
    (∀ c k s, str_upper s ∉ (["ENABLED", "PAUSED", "REMOVED"] : List String) →
        update_campaign_status c k s =
          .error ("Invalid status: " ++ s ++ ". Use ENABLED, PAUSED, or REMOVED.")) ∧
    (∀ c g a s, str_upper s ∈ (["ENABLED", "PAUSED", "REMOVED"] : List String) →
        ∃ op, update_ad_status c g a s = .ok op ∧
          op.update.status = ad_status_map (str_upper s)) ∧
    (∀ c g a s, str_upper s ∉ (["ENABLED", "PAUSED", "REMOVED"] : List String) →
        update_ad_status c g a s =
          .error ("Invalid status: " ++ s ++ ". Use ENABLED, PAUSED, or REMOVED.")) ∧
    (∀ f, f ≠ "" → list_campaigns_query (some f) =
        list_campaigns_base ++ " WHERE campaign.status = \x27" ++ f ++
          "\x27 ORDER BY campaign.name") ∧
    (∀ cid f, f ≠ "" → list_ads_query cid (some f) =
        list_ads_base cid ++ " AND ad_group_ad.status = \x27" ++ f ++
          "\x27 ORDER BY metrics.impressions DESC") := by
  refine ⟨?_, ?_, ?_, ?_, ?_, ?_⟩
  · intro c k s hs
    cases hmap : campaign_status_map (str_upper s) with
    | none =>
        exfalso
        obtain h | h | h := by simpa using hs
        all_goals rw [h] at hmap
        all_goals exact absurd hmap (by decide)
    | some st =>
        refine ⟨{ update := { resourceName := some (campaign_path c k)
                              status := some st }
                  updateMask := ["status"] }, ?_, ?_⟩
        · simp only [update_campaign_status]
          rw [hmap]
        · rfl
  · intro c k s hs
    simp only [update_campaign_status, campaign_status_map_none hs]
  · intro c g a s hs
    cases hmap : ad_status_map (str_upper s) with
    | none =>
        exfalso
        obtain h | h | h := by simpa using hs
        all_goals rw [h] at hmap
        all_goals exact absurd hmap (by decide)
    | some st =>
        refine ⟨{ update := { resourceName := some (ad_group_ad_path c g a)
                              status := some st }
                  updateMask := ["status"] }, ?_, ?_⟩
        · simp only [update_ad_status]
          rw [hmap]
        · rfl
  · intro c g a s hs
    simp only [update_ad_status, ad_status_map_none hs]
  · intro f hf
    simp only [list_campaigns_query, if_neg hf, String.append_assoc]
    rfl
  · intro cid f hf
    simp only [list_ads_query, if_neg hf, String.append_assoc]
    rfl

/-- C3 witness: `"Paused"` is accepted and normalized by the campaign
status update; `"bogus"` is rejected; `"enabled"` flows into the
`list_ads` query unvalidated. -/
theorem C3_status_validation_witness :
    (∃ op, update_campaign_status "1" "2" "Paused" = .ok op ∧
        op.update.status = campaign_status_map (str_upper "Paused")) ∧
      update_ad_status "1" "3" "4" "bogus" =
        .error ("Invalid status: " ++ "bogus" ++ ". Use ENABLED, PAUSED, or REMOVED.") ∧
      list_ads_query "77" (some "enabled") =
        list_ads_base "77" ++ " AND ad_group_ad.status = \x27" ++ "enabled" ++
          "\x27 ORDER BY metrics.impressions DESC" := by
  refine ⟨?_, ?_, ?_⟩
  · exact C3_status_validation.1 "1" "2" "Paused" (by decide)
  · exact C3_status_validation.2.2.2.1 "1" "3" "4" "bogus" (by decide)
  · exact C3_status_validation.2.2.2.2.2 "77" "enabled" (by decide)

/-- C4 (counterexample).  An empty delimited input is not rejected:
`add_keywords` with `keywords = ""` succeeds and builds one criterion
whose keyword text is the empty string, instead of failing validation. -/
theorem C4_counterexample :
    add_keywords "123" "456" "" "PHRASE" none =
      Except.ok [{ adGroup := ad_group_path "123" "456"
                   keyword := { text := "", matchType := KeywordMatchType.PHRASE }
                   status := AdGroupCriterionStatus.ENABLED
                   cpcBidMicros := none }] := by
  rfl

/-- C4 (amended).  A comma- or pipe-delimited input `"a, b ,c"` parses
to the ordered trimmed list `["a", "b", "c"]`, and every operation
built carries the parsed items in order; but inputs that are empty or
all-blank are not rejected — each (possibly empty) item still yields an
operation with that (possibly empty) keyword text. -/
theorem C4_delimited_parsing :
    keyword_list "a, b ,c" = ["a", "b", "c"] ∧
    headline_list "a| b |c" = ["a", "b", "c"] ∧
    (∀ c g ks mt b ops, add_keywords c g ks mt b = .ok ops →
        ops.map (fun op => op.keyword.text) = keyword_list ks) ∧
    (∀ c k ks, (add_negative_keywords c k ks).map (fun op => op.keyword.text) =
        keyword_list ks) ∧
    (∀ c g b, ∃ ops, add_keywords c g " , " "PHRASE" b = .ok ops ∧
        ops.map (fun op => op.keyword.text) = ["", ""]) := by
  refine ⟨by decide, by decide, ?_, ?_, ?_⟩
  · intro c g ks mt b ops hok
    simp only [add_keywords] at hok
    cases hmap : match_type_map (str_upper mt) with
    | none => rw [hmap] at hok; exact absurd hok (by simp)
    | some m =>
        rw [hmap] at hok
        cases hok
        rw [List.map_map]
        exact List.map_id _
  · intro c k ks
    unfold add_negative_keywords
    rw [List.map_map]
    exact List.map_id _
  · intro c g b
    refine ⟨_, rfl, rfl⟩

/-- C4 witness: a concrete accepted call whose parsed keywords come out
trimmed and in order. -/
theorem C4_delimited_parsing_witness :
    (∃ ops, add_keywords "1" "2" "a, b ,c" "EXACT" none = .ok ops ∧
        ops.map (fun op => op.keyword.text) = ["a", "b", "c"]) ∧
      (∃ ops, add_keywords "1" "2" " , " "PHRASE" none = .ok ops ∧
        ops.map (fun op => op.keyword.text) = ["", ""]) := by
  constructor
  · refine ⟨_, rfl, ?_⟩
    have h := C4_delimited_parsing.2.2.1 "1" "2" "a, b ,c" "EXACT" none _ rfl
    rw [h]
    exact C4_delimited_parsing.1
  · exact C4_delimited_parsing.2.2.2.2 "1" "2" none

/-- C5 (counterexample).  A descending explicit date pair is not
rejected: `get_campaign_performance` builds and would send the query
with `start = 2024-12-31` and `end = 2024-01-01` instead of failing
validation. -/
theorem C5_counterexample :
    get_campaign_performance_query "2024-12-31,2024-01-01" none =
      Except.ok (campaign_performance_base none ++
        " AND segments.date >= \x272024-12-31\x27 AND segments.date <= \x272024-01-01\x27 ORDER BY metrics.cost_micros DESC") := by
  rfl

/-- C5 (amended).  A date range containing a comma is split; when the
split has exactly two parts they are trimmed and interpolated into the
query verbatim — no ISO-format check and no ascending-order check — and
only a comma-containing string with more than two parts fails (the
two-way unpack raises). -/
theorem C5_date_pair_unvalidated :
    ∀ dr (cid : Option String) s e, split_char ',' dr = [s, e] →
      get_campaign_performance_query dr cid =
        .ok (campaign_performance_base cid ++
          " AND segments.date >= \x27" ++ str_strip s ++ "\x27" ++
          " AND segments.date <= \x27" ++ str_strip e ++ "\x27" ++
          " ORDER BY metrics.cost_micros DESC") := by
  intro dr cid s e h
  unfold get_campaign_performance_query
  rw [h]

/-- C5 witness: the ascending pair of the spec scenario takes the
literal-range branch with both dates interpolated. -/
theorem C5_date_pair_unvalidated_witness :
    get_campaign_performance_query "2024-01-01,2024-01-31" none =
      .ok (campaign_performance_base none ++
        " AND segments.date >= \x27" ++ str_strip "2024-01-01" ++ "\x27" ++
        " AND segments.date <= \x27" ++ str_strip "2024-01-31" ++ "\x27" ++
        " ORDER BY metrics.cost_micros DESC") :=
  C5_date_pair_unvalidated "2024-01-01,2024-01-31" none "2024-01-01" "2024-01-31" (by decide)

/-- C6 (counterexample).  A negative daily budget is not rejected:
`create_campaign` with `-5` dollars builds the budget payload with
`amount_micros = -5000000`, which would be sent to the platform. -/
theorem C6_counterexample :
    (create_campaign "Winter Push" (-5) "SEARCH" none none
        "customers/1/campaignBudgets/9").1.amountMicros = some (-5000000) := by
  decide

/-- C6 (amended).  No monetary parameter is validated: a negative
dollar amount flows through `int(d * 1_000_000)` into the operation
payload of `create_campaign`, `update_campaign_budget` and
`create_ad_group` alike, as a non-positive micro amount. -/
theorem C6_negative_amount_not_rejected :
    ∀ d : ℚ, d < 0 →
      (∀ n ch sd ed br, (create_campaign n d ch sd ed br).1.amountMicros =
          some (dollars_to_micros d)) ∧
      (∀ br, (update_campaign_budget br d).update.amountMicros =
          some (dollars_to_micros d)) ∧
      (∀ c k n, (create_ad_group c k n d).cpcBidMicros = dollars_to_micros d) ∧
      dollars_to_micros d ≤ 0 := by
  intro d hd
  refine ⟨fun n ch sd ed br => rfl, fun br => rfl, fun c k n => rfl, ?_⟩
  unfold dollars_to_micros int_trunc
  have hneg : d * 1000000 < 0 := mul_neg_of_neg_of_pos hd (by norm_num)
  rw [if_neg (not_le.mpr hneg)]
  have hfl : (0 : ℤ) ≤ Rat.floor (-(d * 1000000)) := by
    rw [ratFloor_eq_floor]
    exact Int.floor_nonneg.mpr (by linarith)
  omega

/-- C6 witness: the concrete negative budget `-5` dollars. -/
theorem C6_negative_amount_not_rejected_witness :
    (update_campaign_budget "customers/1/campaignBudgets/9" (-5)).update.amountMicros =
        some (dollars_to_micros (-5)) ∧
      dollars_to_micros (-5) ≤ 0 :=
  ⟨(C6_negative_amount_not_rejected (-5) (by norm_num)).2.1 "customers/1/campaignBudgets/9",
    (C6_negative_amount_not_rejected (-5) (by norm_num)).2.2.2⟩

/-- C7.  Creating a campaign with daily budget 50 dollars and channel
`"search"` yields a budget-creation payload of exactly 50000000 micros
and a campaign whose initial status is PAUSED; the initial status is the
constant PAUSED for every input (the caller cannot supply a status —
`create_campaign` takes none). -/
theorem C7_create_campaign_scenario :
    (create_campaign "Spring Sale" 50 "search" none none
        "customers/1/campaignBudgets/7").1.amountMicros = some 50000000 ∧
      (create_campaign "Spring Sale" 50 "search" none none
        "customers/1/campaignBudgets/7").2.status = some CampaignStatus.PAUSED ∧
      (∀ n (d : ℚ) ch sd ed br,
        (create_campaign n d ch sd ed br).2.status = some CampaignStatus.PAUSED) := by
  exact ⟨by decide, rfl, fun n d ch sd ed br => rfl⟩

/-- C8.  Every monetary value placed into a platform payload is integer
micros obtained by `int(dollars * 1_000_000)` — in the campaign budget
creation, the budget update, the ad-group CPC bid and the keyword CPC
bid — and every monetary value rendered into report text is micros
divided by 1,000,000 displayed with two-decimal rounding. -/
theorem C8_money_units :
    (∀ n (d : ℚ) ch sd ed br, (create_campaign n d ch sd ed br).1.amountMicros =
        some (dollars_to_micros d)) ∧
    (∀ br (d : ℚ), (update_campaign_budget br d).update.amountMicros =
        some (dollars_to_micros d)) ∧
    (∀ c k n (b : ℚ), (create_ad_group c k n b).cpcBidMicros = dollars_to_micros b) ∧
    (∀ c g ks mt (b : ℚ) ops, add_keywords c g ks mt (some b) = .ok ops → b ≠ 0 →
        ∀ op ∈ ops, op.cpcBidMicros = some (dollars_to_micros b)) ∧
    (∀ id nm st ch (m : ℤ) sd ed, list_campaign_row id nm st ch m sd ed =
        "ID: " ++ toString id ++ "\n  Name: " ++ nm ++ "\n  Status: " ++ st ++
          "\n  Channel: " ++ ch ++ "\n  Daily Budget: $" ++
          formatF2 ((m : ℚ) / 1000000) ++ "\n  Start: " ++ sd ++ "\n  End: " ++ ed) ∧
    (∀ cm am : ℤ, campaign_perf_money_line cm am =
        "  Cost: $" ++ formatF2 ((cm : ℚ) / 1000000) ++ " | Avg CPC: $" ++
          formatF2 ((am : ℚ) / 1000000) ++ "\n") := by
  refine ⟨fun n d ch sd ed br => rfl, fun br d => rfl, fun c k n b => rfl,
    ?_, fun id nm st ch m sd ed => rfl, fun cm am => rfl⟩
  intro c g ks mt b ops hok hb op hop
  simp only [add_keywords] at hok
  cases hmap : match_type_map (str_upper mt) with
  | none => rw [hmap] at hok; exact absurd hok (by simp)
  | some m =>
      rw [hmap] at hok
      cases hok
      rw [List.mem_map] at hop
      obtain ⟨kw, _, rfl⟩ := hop
      simp only [if_neg hb]
      rfl

/-- C8 witness: a concrete keyword batch with a nonzero bid carries the
bid in micros. -/
theorem C8_money_units_witness :
    ∃ ops, add_keywords "1" "2" "rain parka" "EXACT" (some 2) = .ok ops ∧
      ∀ op ∈ ops, op.cpcBidMicros = some (dollars_to_micros 2) := by
  refine ⟨_, rfl, ?_⟩
  exact C8_money_units.2.2.2.1 "1" "2" "rain parka" "EXACT" 2 _ rfl (by norm_num)

theorem intercalate_go_append (x y s : String) (l : List String) :
    String.intercalate.go (x ++ y) s l = x ++ String.intercalate.go y s l := by
  induction l generalizing y with
  | nil => rfl
  | cons a as ih =>
      show String.intercalate.go (x ++ y ++ s ++ a) s as =
        x ++ String.intercalate.go (y ++ s ++ a) s as
      rw [String.append_assoc, String.append_assoc,
        ← String.append_assoc y s a]
      exact ih (y ++ s ++ a)

/-- C9.  The error formatter renders a nonempty list of platform
failure messages as newline-separated lines: the header first, then one
`Error: `-prefixed line per message, in the order the messages appear. -/
theorem C9_format_error_lines :
    ∀ messages : List String, messages ≠ [] →
      format_error messages =
        String.intercalate "\n"
          ("Google Ads API Error:" :: messages.map (fun m => "Error: " ++ m)) := by
  intro messages hne
  match messages with
  | [] => exact absurd rfl hne
  | a :: as =>
      show "Google Ads API Error:\n" ++
          String.intercalate.go ("Error: " ++ a) "\n" (as.map (fun m => "Error: " ++ m)) =
        String.intercalate.go "Google Ads API Error:" "\n"
          (("Error: " ++ a) :: as.map (fun m => "Error: " ++ m))
      rw [show String.intercalate.go "Google Ads API Error:" "\n"
            (("Error: " ++ a) :: as.map (fun m => "Error: " ++ m)) =
          String.intercalate.go ("Google Ads API Error:" ++ "\n" ++ ("Error: " ++ a)) "\n"
            (as.map (fun m => "Error: " ++ m)) from rfl]
      rw [String.append_assoc]
      exact (intercalate_go_append ("Google Ads API Error:" ++ "\n") ("Error: " ++ a)
        "\n" (as.map (fun m => "Error: " ++ m))).symm

/-- C9 witness: two concrete failure messages render as two ordered
`Error: ` lines under the header. -/
theorem C9_format_error_lines_witness :
    format_error ["budget too low", "name already exists"] =
      String.intercalate "\n"
        ("Google Ads API Error:" ::
          ["budget too low", "name already exists"].map (fun m => "Error: " ++ m)) ∧
    format_error ["budget too low", "name already exists"] =
      "Google Ads API Error:\nError: budget too low\nError: name already exists" := by
  constructor
  · exact C9_format_error_lines ["budget too low", "name already exists"] (by simp)
  · rfl

/-- C10.  A channel type whose uppercase form is none of SEARCH,
DISPLAY, DISCOVERY does not make `create_campaign` fail: the campaign
payload silently falls back to the SEARCH channel type. -/
theorem C10_unknown_channel_falls_back :
    ∀ n (d : ℚ) (ch : String) sd ed br,
      str_upper ch ∉ (["SEARCH", "DISPLAY", "DISCOVERY"] : List String) →
      (create_campaign n d ch sd ed br).2.advertisingChannelType =
        some AdvertisingChannelType.SEARCH := by
  intro n d ch sd ed br h
  show some ((channel_map (str_upper ch)).getD .SEARCH) = _
  rw [channel_map_none h]
  rfl

/-- C10 witness: the unsupported channel `"video"` falls back to
SEARCH. -/
theorem C10_unknown_channel_falls_back_witness :
    (create_campaign "Brand Video" 10 "video" none none
        "customers/1/campaignBudgets/3").2.advertisingChannelType =
      some AdvertisingChannelType.SEARCH :=
  C10_unknown_channel_falls_back "Brand Video" 10 "video" none none
    "customers/1/campaignBudgets/3" (by decide)
